import Mathlib

/-!
Verification of the ML training job lifecycle client
(`src/viam/app/ml_training_client.py`).

The client is a thin facade over a gRPC stub: each of the four operations
(`submit_training_job`, `get_training_job`, `list_training_jobs`,
`cancel_training_job`) builds a request message, issues exactly one remote
call with the authorization metadata stored at construction, and unwraps the
response.  We embed the client shallowly: the stub is a record of pure
oracle functions returning `Except GrpcError _`, mirroring how a gRPC call
either returns a response or raises; each operation returns its result
together with the trace of RPC invocations it issued and the client state
after the call.
-/

namespace Viam

/-- A gRPC failure as raised by grpclib: a transport error or a service-side
`GRPCError`, carrying a status code and message.  The client never inspects
it; it only propagates. -/
structure GrpcError where
  code : Nat
  message : String
deriving DecidableEq

/-- Authorization metadata: header-like key/value pairs
(`Mapping[str, str]` in the source). -/
abbrev Metadata := List (String × String)

/-- Opaque handle for the grpclib `Channel`; the client stores it and never
uses it except to build the stub. -/
abbrev Channel := Nat

/-- Proto enum `ModelType` (`viam.proto.app.mltraining`): an integer-valued
enumeration in the Python runtime. -/
abbrev ModelType := Nat

/-- Modelled from the spec: the recognized model-type enumerated values
(proto enums reserve 0 for the UNSPECIFIED member). -/
def MODEL_TYPE_UNSPECIFIED : ModelType := 0

/-- Modelled from the spec: a recognized model-type value. -/
def MODEL_TYPE_SINGLE_LABEL_CLASSIFICATION : ModelType := 1

/-- Proto enum `TrainingStatus` (`viam.proto.app.mltraining`): an
integer-valued enumeration (`TrainingStatus.ValueType` is `int` in Python). -/
abbrev TrainingStatus := Nat

/-- The distinguished "unspecified" member of `TrainingStatus`; proto enums
assign 0 to the UNSPECIFIED member, so it is the integer 0 at runtime. -/
def TRAINING_STATUS_UNSPECIFIED : TrainingStatus := 0

/-- Modelled from the spec: a real (non-sentinel) training status value. -/
def TRAINING_STATUS_COMPLETED : TrainingStatus := 3

/-- Modelled from the spec: the `Filter` message from `viam.proto.app.data`
is an opaque structured predicate over training data that the client passes
through; its generated definition is not under src/, so it is modelled with
representative fields.  A `Filter` value with all fields at their proto
defaults ("empty-but-present") is still distinct from an absent filter. -/
structure Filter where
  component_name : String
  tags : List String
deriving DecidableEq, BEq

/-- The `Filter` message with every field at its proto default: present but
empty, as distinct from absent. -/
def emptyFilter : Filter := { component_name := "", tags := [] }

/-- Modelled from the spec: `TrainingJobMetadata` is a read-only snapshot of
a job's state owned entirely by the remote service (identifiers, status,
timestamps); the client is a pure pass-through, so representative fields
suffice. -/
structure TrainingJobMetadata where
  id : String
  status : TrainingStatus
  created_on : Nat
  synced_model_id : String
deriving DecidableEq

/-- Proto message `SubmitTrainingJobRequest`: the fields the client fills on
lines 66-73 of the source.  `filter` is a message-typed field, hence
present-or-absent (`Option`): constructing the message with `filter=None`
in Python leaves the field unset. -/
structure SubmitTrainingJobRequest where
  organization_id : String
  model_name : String
  model_version : String
  model_type : ModelType
  tags : List String
  filter : Option Filter
deriving DecidableEq

/-- Proto message `SubmitTrainingJobResponse`: carries the id assigned to
the job. -/
structure SubmitTrainingJobResponse where
  id : String
deriving DecidableEq

/-- Proto message `GetTrainingJobRequest`. -/
structure GetTrainingJobRequest where
  id : String
deriving DecidableEq

/-- Proto message `GetTrainingJobResponse`: carries the job metadata. -/
structure GetTrainingJobResponse where
  metadata : TrainingJobMetadata
deriving DecidableEq

/-- Proto message `ListTrainingJobsRequest`: organization id and an
(always-set) enumerated status field. -/
structure ListTrainingJobsRequest where
  organization_id : String
  status : TrainingStatus
deriving DecidableEq

/-- Proto message `ListTrainingJobsResponse`: the repeated `jobs` field, an
ordered sequence of job metadata. -/
structure ListTrainingJobsResponse where
  jobs : List TrainingJobMetadata
deriving DecidableEq

/-- Proto message `CancelTrainingJobRequest`. -/
structure CancelTrainingJobRequest where
  id : String
deriving DecidableEq

/-- Proto message `CancelTrainingJobResponse`: empty. -/
structure CancelTrainingJobResponse where
deriving DecidableEq

/-- One RPC invocation as issued by the client: which remote procedure, the
request message, and the metadata attached to the call. -/
inductive RpcCall where
  | submitTrainingJob (req : SubmitTrainingJobRequest) (metadata : Metadata)
  | getTrainingJob (req : GetTrainingJobRequest) (metadata : Metadata)
  | listTrainingJobs (req : ListTrainingJobsRequest) (metadata : Metadata)
  | cancelTrainingJob (req : CancelTrainingJobRequest) (metadata : Metadata)

/-- The metadata attached to an RPC invocation. -/
def RpcCall.metadata : RpcCall → Metadata
  | .submitTrainingJob _ md => md
  | .getTrainingJob _ md => md
  | .listTrainingJobs _ md => md
  | .cancelTrainingJob _ md => md

/-- The generated `MLTrainingServiceStub`: one oracle function per remote
procedure, taking the request and the per-call metadata and either
returning the response or failing (a raised exception in Python). -/
structure MLTrainingServiceStub where
  SubmitTrainingJob : SubmitTrainingJobRequest → Metadata → Except GrpcError SubmitTrainingJobResponse
  GetTrainingJob : GetTrainingJobRequest → Metadata → Except GrpcError GetTrainingJobResponse
  ListTrainingJobs : ListTrainingJobsRequest → Metadata → Except GrpcError ListTrainingJobsResponse
  CancelTrainingJob : CancelTrainingJobRequest → Metadata → Except GrpcError CancelTrainingJobResponse

/-- The client state: exactly the three attributes set in `__init__`
(lines 31-41 of the source). -/
structure MLTrainingClient where
  _metadata : Metadata
  _ml_training_client : MLTrainingServiceStub
  _channel : Channel

/-- `MLTrainingClient.__init__(self, channel, metadata)`: stores the
metadata, builds the stub from the channel (`MLTrainingServiceStub(channel)`
is generated transport plumbing, modelled as an arbitrary constructor
function `stubCtor`), and stores the channel. -/
def MLTrainingClient.init (stubCtor : Channel → MLTrainingServiceStub)
    (channel : Channel) (metadata : Metadata) : MLTrainingClient :=
  { _metadata := metadata
    _ml_training_client := stubCtor channel
    _channel := channel }

/-- The observable outcome of one client operation: the returned value or
propagated failure, the trace of RPC invocations issued (in order), and
the client state when the operation finishes. -/
structure OpResult (α : Type) where
  result : Except GrpcError α
  calls : List RpcCall
  client : MLTrainingClient

/-- `submit_training_job` (source lines 42-76): builds a
`SubmitTrainingJobRequest` from the arguments verbatim, issues one
`SubmitTrainingJob` call with the stored metadata, and returns
`response.id`; a raised error propagates (`Except.map`). -/
def MLTrainingClient.submit_training_job (self : MLTrainingClient)
    (org_id : String) (model_name : String) (model_version : String)
    (model_type : ModelType) (tags : List String) (filter : Option Filter) :
    OpResult String :=
  let request : SubmitTrainingJobRequest :=
    { organization_id := org_id
      model_name := model_name
      model_version := model_version
      model_type := model_type
      tags := tags
      filter := filter }
  { result := (self._ml_training_client.SubmitTrainingJob request self._metadata).map
      (fun response => response.id)
    calls := [RpcCall.submitTrainingJob request self._metadata]
    client := self }

/-- `get_training_job` (source lines 78-91): builds a
`GetTrainingJobRequest` with the supplied id, issues one `GetTrainingJob`
call with the stored metadata, and returns `response.metadata`. -/
def MLTrainingClient.get_training_job (self : MLTrainingClient)
    (id : String) : OpResult TrainingJobMetadata :=
  let request : GetTrainingJobRequest := { id := id }
  { result := (self._ml_training_client.GetTrainingJob request self._metadata).map
      (fun response => response.metadata)
    calls := [RpcCall.getTrainingJob request self._metadata]
    client := self }

/-- Source line 105:
`training_status = training_status if training_status else
TrainingStatus.TRAINING_STATUS_UNSPECIFIED`.
Python truthiness on `Optional[int]`: `None` and `0` are falsy. -/
def resolveTrainingStatus (training_status : Option TrainingStatus) :
    TrainingStatus :=
  match training_status with
  | some s => if s != 0 then s else TRAINING_STATUS_UNSPECIFIED
  | none => TRAINING_STATUS_UNSPECIFIED

/-- `list_training_jobs` (source lines 93-109): applies the default
substitution of line 105 to the status, builds a `ListTrainingJobsRequest`,
issues one `ListTrainingJobs` call with the stored metadata, and returns
`list(response.jobs)` (the identity on the embedded list). -/
def MLTrainingClient.list_training_jobs (self : MLTrainingClient)
    (org_id : String) (training_status : Option TrainingStatus) :
    OpResult (List TrainingJobMetadata) :=
  let request : ListTrainingJobsRequest :=
    { organization_id := org_id
      status := resolveTrainingStatus training_status }
  { result := (self._ml_training_client.ListTrainingJobs request self._metadata).map
      (fun response => response.jobs)
    calls := [RpcCall.listTrainingJobs request self._metadata]
    client := self }

/-- `cancel_training_job` (source lines 111-119): builds a
`CancelTrainingJobRequest` with the supplied id, issues one
`CancelTrainingJob` call with the stored metadata, and returns `None`. -/
def MLTrainingClient.cancel_training_job (self : MLTrainingClient)
    (id : String) : OpResult Unit :=
  let request : CancelTrainingJobRequest := { id := id }
  { result := (self._ml_training_client.CancelTrainingJob request self._metadata).map
      (fun _ => ())
    calls := [RpcCall.cancelTrainingJob request self._metadata]
    client := self }

/-- A runtime value appearing as an argument to the client's methods, for
modelling Python call-site argument binding. -/
inductive PyValue where
  | pynone
  | str (s : String)
  | int (n : Nat)
deriving DecidableEq

/-- One parameter of a Python function signature: its name and its declared
default value, when the declaration provides one. -/
structure PyParam where
  name : String
  default : Option PyValue
deriving DecidableEq

/-- Python positional-argument binding: each supplied argument binds to the
next parameter; a parameter left unbound takes its declared default, and
raises `TypeError` when it has none.  Surplus arguments also raise
`TypeError`. -/
def bindPositional (params : List PyParam) (args : List PyValue) :
    Except String (List PyValue) :=
  match params, args with
  | [], [] => Except.ok []
  | [], _ :: _ => Except.error "TypeError: too many positional arguments"
  | p :: ps, [] =>
    match p.default with
    | some d => (bindPositional ps []).map (fun rest => d :: rest)
    | none =>
      Except.error ("TypeError: missing a required argument: " ++ p.name)
  | _ :: ps, a :: rest => (bindPositional ps rest).map (fun vs => a :: vs)

/-- The signature of `list_training_jobs` as declared on line 93 of the
source (`self` excluded): `org_id: str` and
`training_status: Optional[TrainingStatus.ValueType]`, neither with a
declared default value. -/
def list_training_jobs_params : List PyParam :=
  [{ name := "org_id", default := none },
   { name := "training_status", default := none }]

/-- The signature of `submit_training_job` as declared on lines 43-50
(`self` excluded): only `filter` carries a declared default (`None`). -/
def submit_training_job_params : List PyParam :=
  [{ name := "org_id", default := none },
   { name := "model_name", default := none },
   { name := "model_version", default := none },
   { name := "model_type", default := none },
   { name := "tags", default := none },
   { name := "filter", default := some PyValue.pynone }]

/-! ### Concrete fixtures

Concrete stubs and clients used to instantiate the theorems below on
explicit inputs. -/

/-- A fixed transport failure (gRPC status 14, UNAVAILABLE). -/
def connErr : GrpcError := { code := 14, message := "connection refused" }

/-- A stub behind a dead channel: every remote procedure fails with
`connErr`. -/
def failingStub : MLTrainingServiceStub :=
  { SubmitTrainingJob := fun _ _ => Except.error connErr
    GetTrainingJob := fun _ _ => Except.error connErr
    ListTrainingJobs := fun _ _ => Except.error connErr
    CancelTrainingJob := fun _ _ => Except.error connErr }

/-- A client over the dead channel. -/
def failingClient : MLTrainingClient :=
  { _metadata := [("authorization", "Bearer token")]
    _ml_training_client := failingStub
    _channel := 0 }

/-- Metadata fixture for a pending job. -/
def jobMeta1 : TrainingJobMetadata :=
  { id := "job-123", status := 1, created_on := 100, synced_model_id := "m1" }

/-- Metadata fixture for a completed job. -/
def jobMeta2 : TrainingJobMetadata :=
  { id := "job-456", status := TRAINING_STATUS_COMPLETED, created_on := 7,
    synced_model_id := "m2" }

/-- A stub for a healthy service: submission is acknowledged with id
"job-123", lookup returns `jobMeta1`, listing returns two jobs in service
order, cancellation succeeds. -/
def okStub : MLTrainingServiceStub :=
  { SubmitTrainingJob := fun _ _ => Except.ok { id := "job-123" }
    GetTrainingJob := fun _ _ => Except.ok { metadata := jobMeta1 }
    ListTrainingJobs := fun _ _ => Except.ok { jobs := [jobMeta1, jobMeta2] }
    CancelTrainingJob := fun _ _ => Except.ok {} }

/-- A client over the healthy service. -/
def okClient : MLTrainingClient :=
  { _metadata := [("authorization", "Bearer token")]
    _ml_training_client := okStub
    _channel := 1 }

/-- A stub whose submission response is acknowledged but carries an empty
id string. -/
def emptyIdStub : MLTrainingServiceStub :=
  { SubmitTrainingJob := fun _ _ => Except.ok { id := "" }
    GetTrainingJob := fun _ _ => Except.error connErr
    ListTrainingJobs := fun _ _ => Except.error connErr
    CancelTrainingJob := fun _ _ => Except.error connErr }

/-- A client over the empty-id service. -/
def emptyIdClient : MLTrainingClient :=
  { _metadata := [("authorization", "Bearer token")]
    _ml_training_client := emptyIdStub
    _channel := 2 }

/-- A stub for an organization with no jobs: listing returns the empty
sequence. -/
def emptyListStub : MLTrainingServiceStub :=
  { SubmitTrainingJob := fun _ _ => Except.error connErr
    GetTrainingJob := fun _ _ => Except.error connErr
    ListTrainingJobs := fun _ _ => Except.ok { jobs := [] }
    CancelTrainingJob := fun _ _ => Except.error connErr }

/-- A client over the empty-organization service. -/
def emptyListClient : MLTrainingClient :=
  { _metadata := [("authorization", "Bearer token")]
    _ml_training_client := emptyListStub
    _channel := 3 }

/-- The substitution of line 105 is the identity on every explicitly
supplied status value: non-zero values are truthy and pass through, and the
only falsy value, 0, is replaced by `TRAINING_STATUS_UNSPECIFIED`, which is
itself 0. -/
theorem resolveTrainingStatus_some (s : TrainingStatus) :
    resolveTrainingStatus (some s) = s := by
  cases s <;> rfl

/-! ### Claim theorems -/

/-- C1: when `list_training_jobs` is called with `training_status` absent
(`None`), the request issued to the service carries
`TRAINING_STATUS_UNSPECIFIED`; when a status is explicitly supplied, the
request carries exactly that value unchanged (for every value — non-zero
values are truthy and pass through, and the only falsy value 0 is replaced
by `TRAINING_STATUS_UNSPECIFIED`, which equals 0). -/
theorem list_status_default_substitution (c : MLTrainingClient)
    (org_id : String) :
    (∀ s : TrainingStatus,
      (c.list_training_jobs org_id (some s)).calls =
        [RpcCall.listTrainingJobs { organization_id := org_id, status := s }
          c._metadata])
    ∧ (c.list_training_jobs org_id none).calls =
        [RpcCall.listTrainingJobs
          { organization_id := org_id, status := TRAINING_STATUS_UNSPECIFIED }
          c._metadata] := by
  refine ⟨fun s => ?_, rfl⟩
  simp [MLTrainingClient.list_training_jobs, resolveTrainingStatus_some]

/-- C2: when `submit_training_job` is called with `filter` omitted (`None`),
the request issued to the service has its filter field absent (`none`), and
an absent filter is distinct from a present-but-empty filter message. -/
theorem submit_omitted_filter_unset (c : MLTrainingClient)
    (org_id model_name model_version : String) (model_type : ModelType)
    (tags : List String) :
    (c.submit_training_job org_id model_name model_version model_type tags
        none).calls =
      [RpcCall.submitTrainingJob
        { organization_id := org_id, model_name := model_name,
          model_version := model_version, model_type := model_type,
          tags := tags, filter := none } c._metadata]
    ∧ ((some emptyFilter : Option Filter) == (none : Option Filter)) = false :=
  ⟨rfl, rfl⟩

/-- C3: the request `submit_training_job` issues contains exactly the
supplied org id, model name, model version, model type, tags (in order) and
filter, with no transformation or defaulting, and on a successful response
the operation returns precisely the response's `id` field. -/
theorem submit_request_verbatim_and_returns_id (c : MLTrainingClient)
    (org_id model_name model_version : String) (model_type : ModelType)
    (tags : List String) (filter : Option Filter)
    (resp : SubmitTrainingJobResponse)
    (h : c._ml_training_client.SubmitTrainingJob
        { organization_id := org_id, model_name := model_name,
          model_version := model_version, model_type := model_type,
          tags := tags, filter := filter } c._metadata = Except.ok resp) :
    (c.submit_training_job org_id model_name model_version model_type tags
        filter).calls =
      [RpcCall.submitTrainingJob
        { organization_id := org_id, model_name := model_name,
          model_version := model_version, model_type := model_type,
          tags := tags, filter := filter } c._metadata]
    ∧ (c.submit_training_job org_id model_name model_version model_type tags
        filter).result = Except.ok resp.id := by
  refine ⟨rfl, ?_⟩
  simp [MLTrainingClient.submit_training_job, Except.map, h]

/-- C3 witness: the example submission of the spec against the healthy
service returns the service-assigned id "job-123". -/
theorem submit_request_verbatim_witness :
    (okClient.submit_training_job "org1" "classifier" "v1"
      MODEL_TYPE_SINGLE_LABEL_CLASSIFICATION ["prod"] none).result =
      Except.ok "job-123" :=
  (submit_request_verbatim_and_returns_id okClient "org1" "classifier" "v1"
    MODEL_TYPE_SINGLE_LABEL_CLASSIFICATION ["prod"] none { id := "job-123" }
    rfl).2

/-- C4 counterexample: the client places no non-emptiness check on the
returned id, so when the service acknowledges a submission with an empty id
string the operation succeeds while returning an empty job id, contradicting
the claim as stated. -/
theorem submit_empty_id_counterexample :
    (emptyIdClient.submit_training_job "org1" "classifier" "v1"
      MODEL_TYPE_SINGLE_LABEL_CLASSIFICATION ["prod"] none).result =
      Except.ok ""
    ∧ "".length = 0 :=
  ⟨rfl, rfl⟩

/-- C4 (amended): provided the service's successful response carries a
non-empty id, every invocation of `submit_training_job` yields either that
non-empty job id or the original failure; the outcome is always exactly the
response's id on success or the propagated error on failure, and no third
(partial-success) outcome exists. -/
theorem submit_nonempty_id_service_contract (c : MLTrainingClient)
    (org_id model_name model_version : String) (model_type : ModelType)
    (tags : List String) (filter : Option Filter) :
    (∀ resp : SubmitTrainingJobResponse,
      c._ml_training_client.SubmitTrainingJob
        { organization_id := org_id, model_name := model_name,
          model_version := model_version, model_type := model_type,
          tags := tags, filter := filter } c._metadata = Except.ok resp →
      resp.id ≠ "" →
      (c.submit_training_job org_id model_name model_version model_type tags
          filter).result = Except.ok resp.id
        ∧ resp.id ≠ "")
    ∧ (∀ e : GrpcError,
      c._ml_training_client.SubmitTrainingJob
        { organization_id := org_id, model_name := model_name,
          model_version := model_version, model_type := model_type,
          tags := tags, filter := filter } c._metadata = Except.error e →
      (c.submit_training_job org_id model_name model_version model_type tags
          filter).result = Except.error e)
    ∧ ((∃ e, (c.submit_training_job org_id model_name model_version model_type
          tags filter).result = Except.error e)
      ∨ (∃ s, (c.submit_training_job org_id model_name model_version
          model_type tags filter).result = Except.ok s)) := by
  refine ⟨fun resp h hne => ⟨?_, hne⟩, fun e h => ?_, ?_⟩
  · simp [MLTrainingClient.submit_training_job, Except.map, h]
  · simp [MLTrainingClient.submit_training_job, Except.map, h]
  · cases h : c._ml_training_client.SubmitTrainingJob
      { organization_id := org_id, model_name := model_name,
        model_version := model_version, model_type := model_type,
        tags := tags, filter := filter } c._metadata with
    | error e =>
      exact Or.inl ⟨e, by simp [MLTrainingClient.submit_training_job, Except.map, h]⟩
    | ok resp =>
      exact Or.inr ⟨resp.id, by simp [MLTrainingClient.submit_training_job, Except.map, h]⟩

/-- C4 witness: against the healthy service, whose acknowledgement carries
the non-empty id "job-123", submission succeeds with that id. -/
theorem submit_nonempty_id_witness :
    (okClient.submit_training_job "org-A" "detector" "v2"
      MODEL_TYPE_SINGLE_LABEL_CLASSIFICATION [] none).result =
      Except.ok "job-123" :=
  ((submit_nonempty_id_service_contract okClient "org-A" "detector" "v2"
    MODEL_TYPE_SINGLE_LABEL_CLASSIFICATION [] none).1 { id := "job-123" } rfl
    (by decide)).1

/-- C5: when every remote procedure of the stub fails (a transport failure
such as a dead channel), each of the four operations fails with exactly the
original error and issues exactly one RPC invocation: no retry, no
suppression, no transformation, no local recovery. -/
theorem failure_propagation_no_retry (c : MLTrainingClient) (e : GrpcError)
    (hsubmit : ∀ req md,
      c._ml_training_client.SubmitTrainingJob req md = Except.error e)
    (hget : ∀ req md,
      c._ml_training_client.GetTrainingJob req md = Except.error e)
    (hlist : ∀ req md,
      c._ml_training_client.ListTrainingJobs req md = Except.error e)
    (hcancel : ∀ req md,
      c._ml_training_client.CancelTrainingJob req md = Except.error e) :
    (∀ (org_id model_name model_version : String) (model_type : ModelType)
        (tags : List String) (filter : Option Filter),
      (c.submit_training_job org_id model_name model_version model_type tags
          filter).result = Except.error e
      ∧ (c.submit_training_job org_id model_name model_version model_type
          tags filter).calls.length = 1)
    ∧ (∀ id : String,
      (c.get_training_job id).result = Except.error e
      ∧ (c.get_training_job id).calls.length = 1)
    ∧ (∀ (org_id : String) (training_status : Option TrainingStatus),
      (c.list_training_jobs org_id training_status).result = Except.error e
      ∧ (c.list_training_jobs org_id training_status).calls.length = 1)
    ∧ (∀ id : String,
      (c.cancel_training_job id).result = Except.error e
      ∧ (c.cancel_training_job id).calls.length = 1) := by
  refine ⟨fun org_id model_name model_version model_type tags filter =>
      ⟨?_, rfl⟩,
    fun id => ⟨?_, rfl⟩, fun org_id training_status => ⟨?_, rfl⟩,
    fun id => ⟨?_, rfl⟩⟩
  · simp [MLTrainingClient.submit_training_job, Except.map, hsubmit]
  · simp [MLTrainingClient.get_training_job, Except.map, hget]
  · simp [MLTrainingClient.list_training_jobs, Except.map, hlist]
  · simp [MLTrainingClient.cancel_training_job, Except.map, hcancel]

/-- C5 witness: over a dead channel every operation surfaces the connection
failure unchanged. -/
theorem failure_propagation_witness :
    (failingClient.submit_training_job "org1" "classifier" "v1"
      MODEL_TYPE_SINGLE_LABEL_CLASSIFICATION ["prod"] none).result =
      Except.error connErr
    ∧ (failingClient.get_training_job "job-123").result = Except.error connErr
    ∧ (failingClient.list_training_jobs "org1" none).result =
      Except.error connErr
    ∧ (failingClient.cancel_training_job "job-123").result =
      Except.error connErr := by
  have h := failure_propagation_no_retry failingClient connErr
    (fun _ _ => rfl) (fun _ _ => rfl) (fun _ _ => rfl) (fun _ _ => rfl)
  exact ⟨(h.1 "org1" "classifier" "v1" MODEL_TYPE_SINGLE_LABEL_CLASSIFICATION
      ["prod"] none).1,
    (h.2.1 "job-123").1, (h.2.2.1 "org1" none).1, (h.2.2.2 "job-123").1⟩

/-- C6: the status parameter of `list_training_jobs` is NOT optional at the
call site: line 93 declares `training_status: Optional[TrainingStatus.ValueType]`
with no default value, so a call supplying only the organization id raises
`TypeError` instead of behaving as an unfiltered list.  Supplying the
argument explicitly as `None` binds successfully, and `filter` in
`submit_training_job`, by contrast, does carry a declared default and may
be omitted. -/
theorem list_training_jobs_status_argument_required :
    bindPositional list_training_jobs_params [PyValue.str "org1"] =
      Except.error "TypeError: missing a required argument: training_status"
    ∧ bindPositional list_training_jobs_params
        [PyValue.str "org1", PyValue.pynone] =
      Except.ok [PyValue.str "org1", PyValue.pynone]
    ∧ bindPositional submit_training_job_params
        [PyValue.str "org1", PyValue.str "classifier", PyValue.str "v1",
          PyValue.int 1, PyValue.pynone] =
      Except.ok [PyValue.str "org1", PyValue.str "classifier",
        PyValue.str "v1", PyValue.int 1, PyValue.pynone, PyValue.pynone] :=
  ⟨rfl, rfl, rfl⟩

/-- C7: calling `list_training_jobs` with the status explicitly set to
`TRAINING_STATUS_UNSPECIFIED` (value 0, the only falsy enum value) is
observationally identical to calling it with the status absent: the
truthiness-based substitution of line 105 maps both to the same request,
so the whole operation outcome coincides. -/
theorem list_unspecified_equals_absent (c : MLTrainingClient)
    (org_id : String) :
    c.list_training_jobs org_id (some TRAINING_STATUS_UNSPECIFIED) =
      c.list_training_jobs org_id none := rfl

/-- C8: whatever response the service produces, `list_training_jobs`
returns the response's `jobs` list itself — same elements, same order, same
length — with no client-side reordering, deduplication or filtering; in
particular an empty response yields the empty sequence, not a failure. -/
theorem list_returns_jobs_verbatim (c : MLTrainingClient) (org_id : String)
    (training_status : Option TrainingStatus)
    (resp : ListTrainingJobsResponse)
    (h : ∀ req md,
      c._ml_training_client.ListTrainingJobs req md = Except.ok resp) :
    (c.list_training_jobs org_id training_status).result =
      Except.ok resp.jobs := by
  simp [MLTrainingClient.list_training_jobs, Except.map, h]

/-- C8 witness: listing against the healthy service returns its two jobs in
service order, and listing an organization with no jobs returns the empty
sequence. -/
theorem list_returns_jobs_witness :
    (okClient.list_training_jobs "org1" none).result =
      Except.ok [jobMeta1, jobMeta2]
    ∧ (emptyListClient.list_training_jobs "org2"
        (some TRAINING_STATUS_COMPLETED)).result = Except.ok [] :=
  ⟨list_returns_jobs_verbatim okClient "org1" none
      { jobs := [jobMeta1, jobMeta2] } (fun _ _ => rfl),
    list_returns_jobs_verbatim emptyListClient "org2"
      (some TRAINING_STATUS_COMPLETED) { jobs := [] } (fun _ _ => rfl)⟩

/-- C9: `get_training_job` issues a request carrying exactly the supplied
id, and on a successful response returns the response's `metadata` payload
itself, unmodified. -/
theorem get_returns_metadata_verbatim (c : MLTrainingClient) (id : String)
    (resp : GetTrainingJobResponse)
    (h : c._ml_training_client.GetTrainingJob { id := id } c._metadata =
      Except.ok resp) :
    (c.get_training_job id).calls =
      [RpcCall.getTrainingJob { id := id } c._metadata]
    ∧ (c.get_training_job id).result = Except.ok resp.metadata := by
  refine ⟨rfl, ?_⟩
  simp [MLTrainingClient.get_training_job, Except.map, h]

/-- C9 witness: looking up "job-123" against the healthy service returns
the exact metadata object the service holds for it. -/
theorem get_returns_metadata_witness :
    (okClient.get_training_job "job-123").result = Except.ok jobMeta1 :=
  (get_returns_metadata_verbatim okClient "job-123" { metadata := jobMeta1 }
    rfl).2

/-- C10: the constructor stores the supplied metadata mapping, every RPC
invocation issued by any of the four operations attaches exactly the
client's stored metadata, and no operation mutates the client's state
(metadata, stub, channel) on any path — the client after each call equals
the client before it. -/
theorem metadata_attached_and_state_immutable
    (stubCtor : Channel → MLTrainingServiceStub) (channel : Channel)
    (md : Metadata) :
    ((MLTrainingClient.init stubCtor channel md)._metadata = md
      ∧ (MLTrainingClient.init stubCtor channel md)._channel = channel)
    ∧ (∀ (c : MLTrainingClient) (org_id model_name model_version : String)
        (model_type : ModelType) (tags : List String)
        (filter : Option Filter) (jid cid : String)
        (training_status : Option TrainingStatus),
      ((c.submit_training_job org_id model_name model_version model_type tags
          filter).calls.map RpcCall.metadata = [c._metadata]
        ∧ (c.submit_training_job org_id model_name model_version model_type
          tags filter).client = c)
      ∧ ((c.get_training_job jid).calls.map RpcCall.metadata = [c._metadata]
        ∧ (c.get_training_job jid).client = c)
      ∧ ((c.list_training_jobs org_id training_status).calls.map
          RpcCall.metadata = [c._metadata]
        ∧ (c.list_training_jobs org_id training_status).client = c)
      ∧ ((c.cancel_training_job cid).calls.map RpcCall.metadata =
          [c._metadata]
        ∧ (c.cancel_training_job cid).client = c)) :=
  ⟨⟨rfl, rfl⟩,
    fun _ _ _ _ _ _ _ _ _ _ =>
      ⟨⟨rfl, rfl⟩, ⟨rfl, rfl⟩, ⟨rfl, rfl⟩, ⟨rfl, rfl⟩⟩⟩

end Viam
